import Mathlib

set_option maxRecDepth 16384

/-!
Shallow embedding of `src/nm.c` (the NetworkManager backend renderer of the
netplan network-configuration compiler).

Modelling conventions:
* `GString` accumulation becomes pure `String` concatenation in the same order
  as the C appends.
* `exit(1)` after an error message and `g_assert` failures become the
  `Except NmError` error monad: `NmError.fatal msg` models the printed
  diagnostic plus non-zero exit, `NmError.assert_failed` models a violated
  `g_assert` / `g_assert_not_reached`.
* A written file becomes an `Artifact` value (path, content, and the
  file-creation mask in effect during the write).  The process umask is
  threaded explicitly: functions take the current umask and return the umask
  in effect after they return, so the `umask(077)` / `umask(orig_umask)`
  bracket around `g_string_free_to_file` is observable.
* The `netdefs` hash table becomes a `List net_definition` in iteration order;
  the `GHashTable` of access points becomes a `List wifi_access_point`.
-/

/-- `netdef_type` from parse.h.  `ND_ETHERNET` and `ND_WIFI` are the physical
types (below the `ND_VIRTUAL` threshold), `ND_BRIDGE` is the first virtual
type (`ND_BRIDGE = ND_VIRTUAL`). -/
inductive netdef_type where
  | ND_ETHERNET : netdef_type
  | ND_WIFI : netdef_type
  | ND_BRIDGE : netdef_type
deriving DecidableEq

/-- Numeric value of the C enum (ND_NONE = 0 is never produced by the loader). -/
def netdef_type.toNat : netdef_type → Nat
  | .ND_ETHERNET => 1
  | .ND_WIFI => 2
  | .ND_BRIDGE => 3

/-- The `ND_VIRTUAL` threshold of the C enum (`ND_BRIDGE = ND_VIRTUAL = 3`). -/
def ND_VIRTUAL : Nat := 3

/-- `netdef_backend` from parse.h. -/
inductive netdef_backend where
  | BACKEND_NONE : netdef_backend
  | BACKEND_NETWORKD : netdef_backend
  | BACKEND_NM : netdef_backend
deriving DecidableEq

/-- `wifi_mode` from parse.h. -/
inductive wifi_mode where
  | WIFI_MODE_INFRASTRUCTURE : wifi_mode
  | WIFI_MODE_ADHOC : wifi_mode
  | WIFI_MODE_AP : wifi_mode
deriving DecidableEq

/-- `wifi_access_point` from parse.h: one SSID-keyed network of a wifi
definition.  NULL C strings are `none`. -/
structure wifi_access_point where
  ssid : String
  mode : wifi_mode
  password : Option String
deriving DecidableEq

/-- The `match` sub-struct of `net_definition`. -/
structure net_match where
  driver : Option String
  mac : Option String
  original_name : Option String
deriving DecidableEq

/-- `net_definition` from parse.h (the fields nm.c reads).  The C `match`
member is spelled `match_` because `match` is a Lean keyword. -/
structure net_definition where
  id : String
  type : netdef_type
  backend : netdef_backend
  has_match : Bool
  match_ : net_match
  wake_on_lan : Bool
  dhcp4 : Bool
  set_name : Option String
  bridge : Option String
  access_points : Option (List wifi_access_point)
deriving DecidableEq

/-- Fatal outcomes of the renderer: `fatal msg` is `g_fprintf(stderr, msg)`
followed by `exit(1)`; `assert_failed` is a failed `g_assert` or
`g_assert_not_reached`. -/
inductive NmError where
  | fatal : String → NmError
  | assert_failed : NmError
deriving DecidableEq

/-- One file written by the renderer: its path (relative to the root
directory), its content, and the process file-creation mask (umask) that was
in effect during the write. -/
structure Artifact where
  path : String
  content : String
  write_umask : Nat
deriving DecidableEq

/-- `g_string_append_netdef_match` (nm.c lines 17-47): append the NM device
specifier of a definition.  Returns the appended text. -/
def g_string_append_netdef_match (d : net_definition) : Except NmError String :=
  -- g_assert(!def->match.driver || def->set_name);
  if d.match_.driver.isSome ∧ d.set_name = none then
    .error .assert_failed
  else match d.match_.mac with
  | some mac => .ok ("mac:" ++ mac)
  | none =>
    if d.match_.original_name.isSome ∨ d.set_name.isSome ∨ ND_VIRTUAL ≤ d.type.toNat then
      -- we always have the renamed name here
      .ok ("interface-name:" ++
        (if ND_VIRTUAL ≤ d.type.toNat then d.id
         else match d.set_name with
              | some n => n
              | none => d.match_.original_name.getD "(null)"))
    else
      -- no matches → match all devices of that type
      match d.type with
      | .ND_ETHERNET => .ok "type:ethernet"
      | _ => .error .assert_failed

/-- `type_str` (nm.c lines 52-65). -/
def type_str : netdef_type → String
  | .ND_ETHERNET => "ethernet"
  | .ND_WIFI => "wifi"
  | .ND_BRIDGE => "bridge"

/-- `wifi_mode_str` (nm.c lines 70-83). -/
def wifi_mode_str : wifi_mode → String
  | .WIFI_MODE_INFRASTRUCTURE => "infrastructure"
  | .WIFI_MODE_ADHOC => "adhoc"
  | .WIFI_MODE_AP => "ap"

/-- `strpbrk(s, "*[]?") != NULL`: does the string contain a glob
metacharacter? -/
def strpbrk_globs (s : String) : Bool :=
  s.data.any (fun c => c = '*' ∨ c = '[' ∨ c = ']' ∨ c = '?')

/-- Uppercase hexadecimal digit, as used by glib's escaping. -/
def hex_digit (n : Nat) : Char :=
  if n < 10 then Char.ofNat (48 + n) else Char.ofNat (55 + n)

/-- Characters `g_uri_escape_string(s, NULL, TRUE)` leaves untouched: the
RFC 3986 unreserved characters, plus (because allow_utf8 is TRUE) all
non-ASCII characters. -/
def uri_unreserved (c : Char) : Bool :=
  c.isAlphanum ∨ c = '-' ∨ c = '.' ∨ c = '_' ∨ c = '~' ∨ 128 ≤ c.toNat

/-- Escape one character for a URI: unreserved characters stay, everything
else becomes `%XX` with uppercase hex. -/
def g_uri_escape_char (c : Char) : List Char :=
  if uri_unreserved c then [c]
  else ['%', hex_digit (c.toNat / 16), hex_digit (c.toNat % 16)]

/-- Escape a character list for a URI. -/
def g_uri_escape_list : List Char → List Char
  | [] => []
  | c :: cs => g_uri_escape_char c ++ g_uri_escape_list cs

/-- `g_uri_escape_string(s, NULL, TRUE)` from glib, restricted to the
behaviour the renderer relies on. -/
def g_uri_escape_string (s : String) : String :=
  ⟨g_uri_escape_list s.data⟩

/-- The interface-name block of `write_nm_conf_access_point`
(nm.c lines 112-132): for physical devices match names only (the glob check
lives here); for virtual devices set the name to `id`. -/
def nm_interface_name_section (d : net_definition) : Except NmError String :=
  if d.type.toNat < ND_VIRTUAL then
    match d.set_name with
    | some n => .ok ("interface-name=" ++ n ++ "\n")
    | none =>
      if !d.has_match then
        .ok ("interface-name=" ++ d.id ++ "\n")
      else match d.match_.original_name with
        | some oname =>
          -- NM does not support interface name globbing
          if strpbrk_globs oname then
            .error (.fatal ("ERROR: " ++ d.id ++
              ": NetworkManager definitions do not support name globbing\n"))
          else .ok ("interface-name=" ++ oname ++ "\n")
        | none =>
          -- matches on something other than the name, do not restrict interface-name
          .ok ""
  else
    .ok ("interface-name=" ++ d.id ++ "\n")

/-- The physical-link block of `write_nm_conf_access_point`
(nm.c lines 136-150): wake-on-lan, and the type-specific MAC-binding
section when no rename occurred and a MAC match exists. -/
def nm_physical_link_section (d : net_definition) : Except NmError String :=
  if d.type.toNat < ND_VIRTUAL then
    let e := "\n[ethernet]\nwake-on-lan=" ++ (if d.wake_on_lan then "1" else "0") ++ "\n"
    if d.set_name = none then
      match d.match_.mac with
      | some mac =>
        (match d.type with
         | .ND_ETHERNET => (.ok "\n[802-3-ethernet]\n" : Except NmError String)
         | .ND_WIFI => .ok "\n[802-11-wireless]\n"
         | _ => .error .assert_failed).map
          (fun sect => e ++ sect ++ "mac-address=" ++ mac ++ "\n")
      | none => .ok e
    else .ok e
  else
    .ok ""

/-- `write_nm_conf_access_point` (nm.c lines 95-175).  Returns the written
artifact and the umask in effect after the call; `cur_umask` is the umask in
effect before it.  The write itself happens under `umask(077)` (mask 63), and
`umask(orig_umask)` restores the previous value before returning. -/
def write_nm_conf_access_point (d : net_definition) (ap : Option wifi_access_point)
    (cur_umask : Nat) : Except NmError (Artifact × Nat) :=
  -- if wifi: g_assert(ap); else g_assert(ap == NULL);
  if (if d.type = .ND_WIFI then ap = none else ap ≠ none) then
    .error .assert_failed
  else
    let s0 := "[connection]\nid=ubuntu-network-" ++ d.id
    let s1 := match ap with
              | some a => s0 ++ "-" ++ a.ssid
              | none => s0
    let s2 := s1 ++ "\ntype=" ++ type_str d.type ++ "\n"
    (nm_interface_name_section d).bind (fun f3 =>
      let s3 := s2 ++ f3
      let s4 := match d.bridge with
                | some b => s3 ++ "slave-type=bridge\nmaster=" ++ b ++ "\n"
                | none => s3
      (nm_physical_link_section d).bind (fun f5 =>
        let s5 := s4 ++ f5
        let s6 := if d.dhcp4 then s5 ++ "\n[ipv4]\nmethod=auto\n" else s5
        match ap with
        | some a =>
          let escaped_ssid := g_uri_escape_string a.ssid
          let conf_path := "run/NetworkManager/system-connections/ubuntu-network-" ++
            d.id ++ "-" ++ escaped_ssid
          let s7 := if a.mode = .WIFI_MODE_AP then s6 ++ "\n[ipv4]\nmethod=shared\n" else s6
          let s8 := s7 ++ "\n[wifi]\nssid=" ++ a.ssid ++ "\nmode=" ++ wifi_mode_str a.mode ++ "\n"
          let s9 := match a.password with
                    | some p => s8 ++ "\n[wifi-security]\nkey-mgmt=wpa-psk\npsk=" ++ p ++ "\n"
                    | none => s8
          .ok (⟨conf_path, s9, 63⟩, cur_umask)
        | none =>
          .ok (⟨"run/NetworkManager/system-connections/ubuntu-network-" ++ d.id, s6, 63⟩,
            cur_umask)))

/-- The per-SSID loop of `write_nm_conf` (nm.c lines 197-204): one connection
file per access point, in hash-table iteration order. -/
def write_nm_conf_aps (d : net_definition) :
    List wifi_access_point → Nat → Except NmError (List Artifact × Nat)
  | [], u => .ok ([], u)
  | ap :: rest, u =>
    (write_nm_conf_access_point d (some ap) u).bind (fun r =>
      (write_nm_conf_aps d rest r.2).bind (fun rr =>
        .ok (r.1 :: rr.1, rr.2)))

/-- `write_nm_conf` (nm.c lines 183-209): render one definition.  Returns the
artifacts written for it (empty when the definition belongs to another
backend) and the umask after the call. -/
def write_nm_conf (d : net_definition) (cur_umask : Nat) :
    Except NmError (List Artifact × Nat) :=
  if d.backend ≠ .BACKEND_NM then
    -- not for us → no-op
    .ok ([], cur_umask)
  else if d.match_.driver.isSome ∧ d.set_name = none then
    .error (.fatal ("ERROR: " ++ d.id ++
      ": NetworkManager definitions do not support matching by driver\n"))
  else if d.type = .ND_WIFI then
    match d.access_points with
    | none => .error .assert_failed   -- g_assert(def->access_points);
    | some aps => write_nm_conf_aps d aps cur_umask
  else if d.access_points.isSome then
    .error .assert_failed             -- g_assert(def->access_points == NULL);
  else
    (write_nm_conf_access_point d none cur_umask).map (fun r => ([r.1], r.2))

/-- One udev rule line, as produced by `nd_append_non_nm_ids`
(nm.c line 221). -/
def udev_rule_line (driver : String) : String :=
  "ACTION==\"add|change\", SUBSYSTEM==\"net\", ENV\x7bID_NET_DRIVER\x7d==\"" ++ driver ++
    "\", ENV\x7bNM_UNMANAGED\x7d=\"1\"\n"

/-- `nd_append_non_nm_ids` (nm.c lines 211-227), as a state transformer on
(the `unmanaged-devices` string being built, the lazily-created global
`udev_rules` buffer). -/
def nd_append_non_nm_ids (acc : String × Option String) (nd : net_definition) :
    Except NmError (String × Option String) :=
  if nd.backend ≠ .BACKEND_NM then
    match nd.match_.driver with
    | some drv =>
      -- NM cannot match on drivers, so ignore these via udev rules
      .ok (acc.1, some ((acc.2.getD "") ++ udev_rule_line drv))
    | none =>
      (g_string_append_netdef_match nd).map (fun spec => (acc.1 ++ spec ++ ",", acc.2))
  else
    .ok acc

/-- `g_hash_table_foreach(netdefs, nd_append_non_nm_ids, s)` in iteration
order. -/
def nd_fold_non_nm_ids : List net_definition → String × Option String →
    Except NmError (String × Option String)
  | [], acc => .ok acc
  | nd :: rest, acc => (nd_append_non_nm_ids acc nd).bind (nd_fold_non_nm_ids rest)

/-- The fixed head of the unmanaged-devices stanza (nm.c line 240). -/
def nm_unmanaged_header : String :=
  "[keyfile]\n# devices managed by networkd\nunmanaged-devices+="

/-- Path of the aggregate unmanaged-devices artifact (nm.c line 244). -/
def nm_conf_d_path : String := "run/NetworkManager/conf.d/ubuntu-network.conf"

/-- Path of the aggregate udev-rules artifact (nm.c line 250). -/
def udev_rules_path : String := "run/udev/rules.d/90-ubuntu-network.rules"

/-- `write_nm_conf_finish` (nm.c lines 229-251): after all definitions are
processed, write the aggregate exclusion artifacts.  `netdefs` is the global
definition table in iteration order; `cur_umask` is the ambient umask (these
writes are not bracketed by `umask` calls). -/
def write_nm_conf_finish (netdefs : List net_definition) (cur_umask : Nat) :
    Except NmError (List Artifact) :=
  if netdefs.length = 0 then
    .ok []
  else
    (nd_fold_non_nm_ids netdefs (nm_unmanaged_header, none)).map (fun r =>
      -- s->len > len ⟺ some specifier was appended after the header
      (if r.1 ≠ nm_unmanaged_header then
        [(⟨nm_conf_d_path, r.1, cur_umask⟩ : Artifact)]
       else []) ++
      (match r.2 with
       | some rules => [(⟨udev_rules_path, rules, cur_umask⟩ : Artifact)]
       | none => []))

deriving instance DecidableEq for Except

/-! ## Derived views of the exclusion fold, used to state order-independence -/

/-- Concatenation of a list of strings, left to right. -/
def concatStrs : List String → String
  | [] => ""
  | s :: rest => s ++ concatStrs rest

/-- A definition that `nd_append_non_nm_ids` turns into an unmanaged-device
specifier: not owned by NM and without a driver match. -/
def non_nm_plain (nd : net_definition) : Bool :=
  !(nd.backend == netdef_backend.BACKEND_NM) && nd.match_.driver.isNone

/-- The specifier strings collected by the exclusion fold, in iteration
order (dropping any whose encoding aborts). -/
def nm_spec_strings (l : List net_definition) : List String :=
  l.filterMap (fun nd =>
    if non_nm_plain nd then (g_string_append_netdef_match nd).toOption else none)

/-- The specifier strings collected by the exclusion fold, or the first
encoding failure. -/
def nm_spec_results : List net_definition → Except NmError (List String)
  | [] => .ok []
  | nd :: rest =>
    if non_nm_plain nd then
      (g_string_append_netdef_match nd).bind (fun spec =>
        (nm_spec_results rest).map (fun ss => spec :: ss))
    else nm_spec_results rest

/-- The udev rule lines collected by the exclusion fold, in iteration
order: one line per non-NM definition with a driver match. -/
def nm_udev_lines (l : List net_definition) : List String :=
  l.filterMap (fun nd =>
    if nd.backend ≠ netdef_backend.BACKEND_NM then nd.match_.driver.map udev_rule_line
    else none)

/-- Effect of appending a batch of udev rule lines on the lazily-created
`udev_rules` buffer. -/
def merge_udev (u0 : Option String) (lines : List String) : Option String :=
  if lines = [] then u0 else some (u0.getD "" ++ concatStrs lines)

/-- The path of the per-SSID connection artifact of a wifi definition. -/
def ssid_conf_path (id ssid : String) : String :=
  "run/NetworkManager/system-connections/ubuntu-network-" ++ id ++ "-" ++
    g_uri_escape_string ssid

/-- `needle` occurs verbatim inside `hay`. -/
def str_contains (hay needle : String) : Prop :=
  ∃ pre post, hay = pre ++ needle ++ post

/-! ## Basic helpers about `Except` and `String` -/

theorem except_bind_ok {ε α β : Type} (a : α) (f : α → Except ε β) :
    (Except.ok a : Except ε α).bind f = f a := rfl

theorem except_bind_error {ε α β : Type} (e : ε) (f : α → Except ε β) :
    (Except.error e : Except ε α).bind f = Except.error e := rfl

theorem except_map_ok {ε α β : Type} (a : α) (f : α → β) :
    (Except.ok a : Except ε α).map f = Except.ok (f a) := rfl

theorem except_map_error {ε α β : Type} (e : ε) (f : α → β) :
    (Except.error e : Except ε α).map f = Except.error e := rfl

theorem str_append_left_cancel {a b c : String} (h : a ++ b = a ++ c) : b = c := by
  apply String.ext
  have hd := congrArg String.data h
  simp only [String.data_append] at hd
  exact List.append_cancel_left hd

theorem concatStrs_comma_eq_empty_iff (ss : List String) :
    concatStrs (ss.map (fun sp => sp ++ ",")) = "" ↔ ss = [] := by
  cases ss with
  | nil => simp [concatStrs]
  | cons s rest =>
    simp only [List.map_cons, concatStrs]
    constructor
    · intro h
      have hl := congrArg String.length h
      have h1 : (("," : String)).length = 1 := rfl
      have h0 : (("" : String)).length = 0 := rfl
      simp only [String.length_append, h1, h0] at hl
      omega
    · intro h
      exact absurd h (List.cons_ne_nil _ _)

/-! ## Characterization of the exclusion fold -/

theorem merge_udev_cons (u0 : Option String) (line : String) (lines : List String) :
    merge_udev (some (u0.getD "" ++ line)) lines = merge_udev u0 (line :: lines) := by
  cases lines with
  | nil => simp [merge_udev, concatStrs, String.append_empty]
  | cons a rest => simp [merge_udev, concatStrs, String.append_assoc]

theorem nd_fold_characterization (l : List net_definition) :
    ∀ (s0 : String) (u0 : Option String),
    nd_fold_non_nm_ids l (s0, u0) =
      (nm_spec_results l).map (fun ss =>
        (s0 ++ concatStrs (ss.map (fun sp => sp ++ ",")), merge_udev u0 (nm_udev_lines l))) := by
  induction l with
  | nil =>
    intro s0 u0
    simp [nd_fold_non_nm_ids, nm_spec_results, nm_udev_lines, merge_udev, concatStrs,
      except_map_ok, String.append_empty, List.filterMap_nil]
  | cons nd rest ih =>
    intro s0 u0
    by_cases hb : nd.backend = netdef_backend.BACKEND_NM
    · have hplain : non_nm_plain nd = false := by simp [non_nm_plain, hb]
      simp [nd_fold_non_nm_ids, nd_append_non_nm_ids, hb, except_bind_ok,
        nm_spec_results, hplain, nm_udev_lines, List.filterMap_cons, ih]
    · cases hd : nd.match_.driver with
      | some drv =>
        have hplain : non_nm_plain nd = false := by simp [non_nm_plain, hd]
        have hstep : nd_append_non_nm_ids (s0, u0) nd =
            .ok (s0, some (u0.getD "" ++ udev_rule_line drv)) := by
          simp [nd_append_non_nm_ids, hb, hd]
        cases hsr : nm_spec_results rest with
        | error e =>
          simp [nd_fold_non_nm_ids, hstep, except_bind_ok, ih, hsr, except_map_error,
            nm_spec_results, hplain]
        | ok ss =>
          simp [nd_fold_non_nm_ids, hstep, except_bind_ok, ih, hsr, except_map_ok,
            nm_spec_results, hplain, nm_udev_lines, List.filterMap_cons, hb, hd,
            merge_udev_cons]
      | none =>
        have hplain : non_nm_plain nd = true := by simp [non_nm_plain, hb, hd]
        cases henc : g_string_append_netdef_match nd with
        | error e =>
          simp [nd_fold_non_nm_ids, nd_append_non_nm_ids, hb, hd, henc, except_map_error,
            except_bind_error, nm_spec_results, hplain, except_bind_ok]
        | ok spec =>
          have hstep : nd_append_non_nm_ids (s0, u0) nd = .ok (s0 ++ spec ++ ",", u0) := by
            simp [nd_append_non_nm_ids, hb, hd, henc, except_map_ok]
          cases hsr : nm_spec_results rest with
          | error e =>
            simp [nd_fold_non_nm_ids, hstep, except_bind_ok, ih, hsr, except_map_error,
              nm_spec_results, hplain, henc]
          | ok ss =>
            simp [nd_fold_non_nm_ids, hstep, except_bind_ok, ih, hsr, except_map_ok,
              nm_spec_results, hplain, henc, nm_udev_lines, List.filterMap_cons, hb, hd,
              concatStrs, String.append_assoc]

theorem nm_spec_results_ok_eq_strings (l : List net_definition) :
    ∀ ss, nm_spec_results l = .ok ss → ss = nm_spec_strings l := by
  induction l with
  | nil =>
    intro ss h
    simp [nm_spec_results] at h
    simp [nm_spec_strings, ← h]
  | cons nd rest ih =>
    intro ss h
    by_cases hp : non_nm_plain nd = true
    · simp only [nm_spec_results, hp, if_pos] at h
      cases henc : g_string_append_netdef_match nd with
      | error e => rw [henc, except_bind_error] at h; cases h
      | ok spec =>
        rw [henc, except_bind_ok] at h
        cases hsr : nm_spec_results rest with
        | error e => rw [hsr, except_map_error] at h; cases h
        | ok ss2 =>
          rw [hsr, except_map_ok] at h
          cases h
          simp [nm_spec_strings, List.filterMap_cons, hp, henc, Except.toOption]
          exact ih ss2 hsr
    · have hp' : non_nm_plain nd = false := by simpa using hp
      simp only [nm_spec_results, hp', if_neg, Bool.false_eq_true, reduceIte] at h
      simp [nm_spec_strings, List.filterMap_cons, hp']
      exact ih ss h

theorem write_nm_conf_finish_ok (l : List net_definition) (u : Nat) (ss : List String)
    (hne : l ≠ []) (hss : nm_spec_results l = .ok ss) :
    write_nm_conf_finish l u = .ok (
      (if ss = [] then [] else
        [⟨nm_conf_d_path,
          nm_unmanaged_header ++ concatStrs (ss.map (fun sp => sp ++ ",")), u⟩]) ++
      (if nm_udev_lines l = [] then [] else
        [⟨udev_rules_path, concatStrs (nm_udev_lines l), u⟩])) := by
  have hlen : ¬ l.length = 0 := by
    intro h
    exact hne (List.length_eq_zero.mp h)
  unfold write_nm_conf_finish
  rw [if_neg hlen, nd_fold_characterization l nm_unmanaged_header none, hss]
  simp only [except_map_ok]
  congr 1
  congr 1
  · by_cases h0 : ss = []
    · subst h0
      simp [concatStrs, String.append_empty]
    · have hxne : concatStrs (ss.map (fun sp => sp ++ ",")) ≠ "" := by
        intro h
        exact h0 ((concatStrs_comma_eq_empty_iff ss).mp h)
      have hcond : nm_unmanaged_header ++ concatStrs (ss.map (fun sp => sp ++ ",")) ≠
          nm_unmanaged_header := by
        intro heq
        apply hxne
        apply str_append_left_cancel (a := nm_unmanaged_header)
        rw [heq, String.append_empty]
      rw [if_pos hcond, if_neg h0]
  · by_cases hl : nm_udev_lines l = []
    · simp [merge_udev, hl]
    · simp [merge_udev, hl, String.empty_append]

/-! ## The match-specifier encoder: claims C1 and C2 -/

theorem netdef_match_no_assert {d : net_definition}
    (hwf : d.match_.driver.isSome → d.set_name.isSome) :
    ¬ (d.match_.driver.isSome ∧ d.set_name = none) := by
  rintro ⟨h1, h2⟩
  have h3 := hwf h1
  rw [h2] at h3
  simp at h3

/-- C1: for every well-formed definition (one satisfying the encoder's
precondition that a driver match implies a rename) whose `match.mac` is set,
`g_string_append_netdef_match` returns exactly `mac:<value>`, whatever
`match.original_name`, `set_name` or the (possibly virtual) type are. -/
theorem C1_mac_match_precedence (d : net_definition) (mac : String)
    (hwf : d.match_.driver.isSome → d.set_name.isSome)
    (hmac : d.match_.mac = some mac) :
    g_string_append_netdef_match d = .ok ("mac:" ++ mac) := by
  unfold g_string_append_netdef_match
  rw [if_neg (netdef_match_no_assert hwf), hmac]

/-- A definition exercising C1 with every other match criterion present at
once: a virtual type, an original name, a rename and a driver match. -/
def c1w_def : net_definition :=
  { id := "br0", type := .ND_BRIDGE, backend := .BACKEND_NM, has_match := true,
    match_ := { driver := some "e1000e", mac := some "00:11:22:33:44:55",
                original_name := some "eno1" },
    wake_on_lan := false, dhcp4 := false, set_name := some "lan0", bridge := none,
    access_points := none }

/-- Witness for C1 at a concrete definition. -/
theorem C1_mac_match_precedence_witness :
    g_string_append_netdef_match c1w_def = .ok "mac:00:11:22:33:44:55" :=
  C1_mac_match_precedence c1w_def "00:11:22:33:44:55" (by decide) rfl

/-- A virtual (bridge) definition carrying a MAC match. -/
def br_mac_def : net_definition :=
  { id := "br0", type := .ND_BRIDGE, backend := .BACKEND_NM, has_match := true,
    match_ := { driver := none, mac := some "00:11:22:33:44:55", original_name := none },
    wake_on_lan := false, dhcp4 := false, set_name := none, bridge := none,
    access_points := none }

/-- C2 counterexample: a virtual-type definition with a MAC match does NOT
encode to `interface-name:<id>` — the MAC branch is checked first
(nm.c line 21), so it encodes to `mac:<value>`. -/
theorem C2_virtual_encode_counterexample :
    ND_VIRTUAL ≤ br_mac_def.type.toNat ∧
    g_string_append_netdef_match br_mac_def = .ok "mac:00:11:22:33:44:55" ∧
    g_string_append_netdef_match br_mac_def ≠ .ok ("interface-name:" ++ br_mac_def.id) := by
  exact ⟨by decide, by decide, by decide⟩

/-- C2 (amended): for every well-formed virtual-type definition WITHOUT a MAC
match, the encoder returns exactly `interface-name:<id>` regardless of the
original-name or driver match fields. -/
theorem C2_virtual_encode_amended (d : net_definition)
    (hv : ND_VIRTUAL ≤ d.type.toNat)
    (hmac : d.match_.mac = none)
    (hwf : d.match_.driver.isSome → d.set_name.isSome) :
    g_string_append_netdef_match d = .ok ("interface-name:" ++ d.id) := by
  unfold g_string_append_netdef_match
  rw [if_neg (netdef_match_no_assert hwf), hmac]
  simp [hv]

/-- A virtual definition with original-name, driver and rename matches but no
MAC. -/
def c2w_def : net_definition :=
  { id := "br1", type := .ND_BRIDGE, backend := .BACKEND_NM, has_match := true,
    match_ := { driver := some "e1000e", mac := none, original_name := some "eno1" },
    wake_on_lan := false, dhcp4 := false, set_name := some "lan1", bridge := none,
    access_points := none }

/-- Witness for the amended C2 at a concrete definition. -/
theorem C2_virtual_encode_amended_witness :
    g_string_append_netdef_match c2w_def = .ok "interface-name:br1" :=
  C2_virtual_encode_amended c2w_def (by decide) rfl (by decide)

/-! ## Renderer error paths: claims C3 and C10 -/

/-- C3: a definition owned by this backend with a driver match and no rename
makes rendering fail fatally with a diagnostic naming the definition id, and
no artifact is produced for it. -/
theorem C3_driver_match_fatal (d : net_definition) (u : Nat)
    (hb : d.backend = netdef_backend.BACKEND_NM)
    (hd : d.match_.driver.isSome)
    (hs : d.set_name = none) :
    write_nm_conf d u =
      .error (.fatal ("ERROR: " ++ d.id ++
        ": NetworkManager definitions do not support matching by driver\n")) ∧
    ∀ arts u2, write_nm_conf d u ≠ .ok (arts, u2) := by
  have h1 : write_nm_conf d u =
      .error (.fatal ("ERROR: " ++ d.id ++
        ": NetworkManager definitions do not support matching by driver\n")) := by
    unfold write_nm_conf
    rw [if_neg (by simp [hb]), if_pos ⟨hd, hs⟩]
  refine ⟨h1, fun arts u2 h => ?_⟩
  rw [h1] at h
  cases h

/-- A NM-owned ethernet definition matching by driver without a rename. -/
def drv_def : net_definition :=
  { id := "drv0", type := .ND_ETHERNET, backend := .BACKEND_NM, has_match := true,
    match_ := { driver := some "ixgbe", mac := none, original_name := none },
    wake_on_lan := false, dhcp4 := false, set_name := none, bridge := none,
    access_points := none }

/-- Witness for C3 at a concrete definition. -/
theorem C3_driver_match_fatal_witness :
    write_nm_conf drv_def 0 =
      .error (.fatal ("ERROR: " ++ drv_def.id ++
        ": NetworkManager definitions do not support matching by driver\n")) ∧
    ∀ arts u2, write_nm_conf drv_def 0 ≠ .ok (arts, u2) :=
  C3_driver_match_fatal drv_def 0 rfl (by decide) rfl

/-- C10: a NM-owned wifi definition whose access-point table is present but
empty renders without error and writes zero artifacts: the per-SSID loop runs
zero times and `g_assert(def->access_points)` is satisfied. -/
theorem C10_wifi_empty_aps (d : net_definition) (u : Nat)
    (hb : d.backend = netdef_backend.BACKEND_NM)
    (ht : d.type = netdef_type.ND_WIFI)
    (hwf : ¬ (d.match_.driver.isSome ∧ d.set_name = none))
    (hap : d.access_points = some []) :
    write_nm_conf d u = .ok ([], u) := by
  unfold write_nm_conf
  rw [if_neg (by simp [hb]), if_neg hwf, if_pos ht, hap]
  rfl

/-- A NM-owned wifi definition with an empty access-point table. -/
def wempty_def : net_definition :=
  { id := "wl0", type := .ND_WIFI, backend := .BACKEND_NM, has_match := false,
    match_ := { driver := none, mac := none, original_name := none },
    wake_on_lan := false, dhcp4 := false, set_name := none, bridge := none,
    access_points := some [] }

/-- Witness for C10 at a concrete definition. -/
theorem C10_wifi_empty_aps_witness :
    write_nm_conf wempty_def 0 = .ok ([], 0) :=
  C10_wifi_empty_aps wempty_def 0 rfl rfl (by decide) rfl

/-! ## Concrete scenarios: claims C6 and C8 -/

/-- Scenario A: physical ethernet, no match, owned by networkd, dhcp4 on. -/
def eth0_def : net_definition :=
  { id := "eth0", type := .ND_ETHERNET, backend := .BACKEND_NETWORKD, has_match := false,
    match_ := { driver := none, mac := none, original_name := none },
    wake_on_lan := false, dhcp4 := true, set_name := none, bridge := none,
    access_points := none }

/-- C6: an ethernet definition owned by another backend produces no
per-definition artifact (a no-op, not an error), and the aggregate
unmanaged-devices artifact contains the `type:ethernet` specifier for it. -/
theorem C6_other_backend_ethernet :
    write_nm_conf eth0_def 0 = .ok ([], 0) ∧
    g_string_append_netdef_match eth0_def = .ok "type:ethernet" ∧
    write_nm_conf_finish [eth0_def] 0 =
      .ok [⟨nm_conf_d_path,
        "[keyfile]\n# devices managed by networkd\nunmanaged-devices+=type:ethernet,", 0⟩] ∧
    str_contains "[keyfile]\n# devices managed by networkd\nunmanaged-devices+=type:ethernet,"
      "type:ethernet" :=
  ⟨by decide, by decide, by decide,
    ⟨"[keyfile]\n# devices managed by networkd\nunmanaged-devices+=", ",", by decide⟩⟩

/-- Scenario B: NM-owned wifi definition with one access point in AP mode
carrying a password. -/
def wlan0_def : net_definition :=
  { id := "wlan0", type := .ND_WIFI, backend := .BACKEND_NM, has_match := false,
    match_ := { driver := none, mac := none, original_name := none },
    wake_on_lan := false, dhcp4 := false, set_name := none, bridge := none,
    access_points := some [⟨"Home", .WIFI_MODE_AP, some "secret123"⟩] }

/-- The single artifact content rendered for `wlan0_def`. -/
def wlan0_content : String :=
  "[connection]\nid=ubuntu-network-wlan0-Home\ntype=wifi\ninterface-name=wlan0\n\n[ethernet]\nwake-on-lan=0\n\n[ipv4]\nmethod=shared\n\n[wifi]\nssid=Home\nmode=ap\n\n[wifi-security]\nkey-mgmt=wpa-psk\npsk=secret123\n"

/-- C8: rendering scenario B produces exactly one artifact whose content has
the access-point-mode IPv4 section (`method=shared`) and a cleartext
`psk=secret123` security section; the write happens under the owner-only
file-creation mask 63 (= octal 077, so the file gets owner-only permission
bits), and the ambient umask `u` is restored right after the write: the
returned umask equals the incoming one for every `u`. -/
theorem C8_wifi_ap_psk (u : Nat) :
    write_nm_conf wlan0_def u =
      .ok ([⟨"run/NetworkManager/system-connections/ubuntu-network-wlan0-Home",
        wlan0_content, 63⟩], u) ∧
    str_contains wlan0_content "\n[ipv4]\nmethod=shared\n" ∧
    str_contains wlan0_content "\n[wifi-security]\nkey-mgmt=wpa-psk\npsk=secret123\n" :=
  ⟨by rfl,
   ⟨"[connection]\nid=ubuntu-network-wlan0-Home\ntype=wifi\ninterface-name=wlan0\n\n[ethernet]\nwake-on-lan=0\n",
    "\n[wifi]\nssid=Home\nmode=ap\n\n[wifi-security]\nkey-mgmt=wpa-psk\npsk=secret123\n",
    by decide⟩,
   ⟨"[connection]\nid=ubuntu-network-wlan0-Home\ntype=wifi\ninterface-name=wlan0\n\n[ethernet]\nwake-on-lan=0\n\n[ipv4]\nmethod=shared\n\n[wifi]\nssid=Home\nmode=ap\n",
    "", by decide⟩⟩

/-! ## The finisher: claims C9 and C7 -/

/-- C9: called once after all definitions, the finisher produces nothing for
an empty definition table; otherwise, when the collected specifier list `ss`
is non-empty it produces exactly one unmanaged-devices artifact — a single
`[keyfile]` stanza with all specifiers joined (each followed by a comma)
after the one `unmanaged-devices+=` directive — and when any driver
exclusions were collected it produces exactly one udev-rule artifact with
one rule line per driver-excluded definition. -/
theorem C9_finisher (l : List net_definition) (u : Nat) (ss : List String)
    (hne : l ≠ []) (hss : nm_spec_results l = .ok ss) :
    write_nm_conf_finish [] u = .ok [] ∧
    write_nm_conf_finish l u = .ok (
      (if ss = [] then [] else
        [⟨nm_conf_d_path,
          nm_unmanaged_header ++ concatStrs (ss.map (fun sp => sp ++ ",")), u⟩]) ++
      (if nm_udev_lines l = [] then [] else
        [⟨udev_rules_path, concatStrs (nm_udev_lines l), u⟩])) :=
  ⟨rfl, write_nm_conf_finish_ok l u ss hne hss⟩

/-- A networkd-owned definition excluded by MAC specifier. -/
def excl1_def : net_definition :=
  { id := "en1", type := .ND_ETHERNET, backend := .BACKEND_NETWORKD, has_match := true,
    match_ := { driver := none, mac := some "aa:bb:cc:dd:ee:ff", original_name := none },
    wake_on_lan := false, dhcp4 := false, set_name := none, bridge := none,
    access_points := none }

/-- A networkd-owned definition excluded via a udev driver rule. -/
def excl2_def : net_definition :=
  { id := "en2", type := .ND_ETHERNET, backend := .BACKEND_NETWORKD, has_match := true,
    match_ := { driver := some "brcmfmac", mac := none, original_name := none },
    wake_on_lan := false, dhcp4 := false, set_name := none, bridge := none,
    access_points := none }

/-- Witness for C9 at a concrete two-definition table exercising both
exclusion mechanisms. -/
theorem C9_finisher_witness :
    write_nm_conf_finish [] 0 = .ok [] ∧
    write_nm_conf_finish [excl1_def, excl2_def] 0 = .ok (
      (if (["mac:aa:bb:cc:dd:ee:ff"] : List String) = [] then [] else
        [⟨nm_conf_d_path,
          nm_unmanaged_header ++
            concatStrs ((["mac:aa:bb:cc:dd:ee:ff"] : List String).map (fun sp => sp ++ ",")),
          0⟩]) ++
      (if nm_udev_lines [excl1_def, excl2_def] = [] then [] else
        [⟨udev_rules_path, concatStrs (nm_udev_lines [excl1_def, excl2_def]), 0⟩])) :=
  C9_finisher [excl1_def, excl2_def] 0 ["mac:aa:bb:cc:dd:ee:ff"] (by decide) (by decide)

/-- A networkd-owned definition whose specifier is `mac:aa:aa:aa:aa:aa:aa`. -/
def permA_def : net_definition :=
  { id := "a0", type := .ND_ETHERNET, backend := .BACKEND_NETWORKD, has_match := true,
    match_ := { driver := none, mac := some "aa:aa:aa:aa:aa:aa", original_name := none },
    wake_on_lan := false, dhcp4 := false, set_name := none, bridge := none,
    access_points := none }

/-- A networkd-owned definition whose specifier is `mac:bb:bb:bb:bb:bb:bb`. -/
def permB_def : net_definition :=
  { id := "b0", type := .ND_ETHERNET, backend := .BACKEND_NETWORKD, has_match := true,
    match_ := { driver := none, mac := some "bb:bb:bb:bb:bb:bb", original_name := none },
    wake_on_lan := false, dhcp4 := false, set_name := none, bridge := none,
    access_points := none }

/-- C7 counterexample: the aggregate artifact is NOT byte-for-byte
independent of the iteration order — the finisher joins the specifiers in
hash-table iteration order, so permuting two definitions changes the bytes
of the unmanaged-devices artifact. -/
theorem C7_order_counterexample :
    List.Perm [permA_def, permB_def] [permB_def, permA_def] ∧
    write_nm_conf_finish [permA_def, permB_def] 0 ≠
      write_nm_conf_finish [permB_def, permA_def] 0 :=
  ⟨by decide, by decide⟩

/-- C7 (amended): the finisher is a pure function of the iteration order (so
re-running on the same order reproduces the same bytes), and permuting the
iteration order preserves the exclusion artifacts' SET contents: the
collected specifier list and udev-rule list are permuted, and the same
artifacts (by path) are produced. -/
theorem C7_order_independence_amended (l1 l2 : List net_definition) (u : Nat)
    (arts1 arts2 : List Artifact)
    (hp : l1.Perm l2)
    (h1 : write_nm_conf_finish l1 u = .ok arts1)
    (h2 : write_nm_conf_finish l2 u = .ok arts2) :
    (nm_spec_strings l1).Perm (nm_spec_strings l2) ∧
    (nm_udev_lines l1).Perm (nm_udev_lines l2) ∧
    arts1.map Artifact.path = arts2.map Artifact.path := by
  have hstr : (nm_spec_strings l1).Perm (nm_spec_strings l2) := hp.filterMap _
  have hudev : (nm_udev_lines l1).Perm (nm_udev_lines l2) := hp.filterMap _
  refine ⟨hstr, hudev, ?_⟩
  by_cases hn1 : l1 = []
  · subst hn1
    have hl2 : l2 = [] := hp.symm.eq_nil
    subst hl2
    have h1' : (Except.ok ([] : List Artifact) : Except NmError (List Artifact)) =
        .ok arts1 := h1
    have h2' : (Except.ok ([] : List Artifact) : Except NmError (List Artifact)) =
        .ok arts2 := h2
    injection h1' with e1
    injection h2' with e2
    rw [← e1, ← e2]
  · have hn2 : l2 ≠ [] := by
      intro h
      rw [h] at hp
      exact hn1 hp.eq_nil
    have hlen1 : ¬ l1.length = 0 := fun h => hn1 (List.length_eq_zero.mp h)
    have hlen2 : ¬ l2.length = 0 := fun h => hn2 (List.length_eq_zero.mp h)
    cases hr1 : nm_spec_results l1 with
    | error e =>
      have hbad : write_nm_conf_finish l1 u = .error e := by
        unfold write_nm_conf_finish
        rw [if_neg hlen1, nd_fold_characterization, hr1]
        rfl
      rw [hbad] at h1
      cases h1
    | ok ss1 =>
      cases hr2 : nm_spec_results l2 with
      | error e =>
        have hbad : write_nm_conf_finish l2 u = .error e := by
          unfold write_nm_conf_finish
          rw [if_neg hlen2, nd_fold_characterization, hr2]
          rfl
        rw [hbad] at h2
        cases h2
      | ok ss2 =>
        have e1 := write_nm_conf_finish_ok l1 u ss1 hn1 hr1
        have e2 := write_nm_conf_finish_ok l2 u ss2 hn2 hr2
        rw [e1] at h1
        rw [e2] at h2
        injection h1 with h1'
        injection h2 with h2'
        have hs1 : ss1 = nm_spec_strings l1 := nm_spec_results_ok_eq_strings l1 ss1 hr1
        have hs2 : ss2 = nm_spec_strings l2 := nm_spec_results_ok_eq_strings l2 ss2 hr2
        have hiff1 : ss1 = [] ↔ ss2 = [] := by
          rw [hs1, hs2]
          constructor
          · intro h
            rw [h] at hstr
            exact hstr.symm.eq_nil
          · intro h
            rw [h] at hstr
            exact hstr.eq_nil
        have hiff2 : nm_udev_lines l1 = [] ↔ nm_udev_lines l2 = [] := by
          constructor
          · intro h
            rw [h] at hudev
            exact hudev.symm.eq_nil
          · intro h
            rw [h] at hudev
            exact hudev.eq_nil
        rw [← h1', ← h2']
        by_cases ha : ss1 = []
        · have ha' : ss2 = [] := hiff1.mp ha
          by_cases hc : nm_udev_lines l1 = []
          · have hc' : nm_udev_lines l2 = [] := hiff2.mp hc
            simp [ha, ha', hc, hc']
          · have hc' : nm_udev_lines l2 ≠ [] := fun h => hc (hiff2.mpr h)
            simp [ha, ha', hc, hc']
        · have ha' : ss2 ≠ [] := fun h => ha (hiff1.mpr h)
          by_cases hc : nm_udev_lines l1 = []
          · have hc' : nm_udev_lines l2 = [] := hiff2.mp hc
            simp [ha, ha', hc, hc']
          · have hc' : nm_udev_lines l2 ≠ [] := fun h => hc (hiff2.mpr h)
            simp [ha, ha', hc, hc']

/-- Witness for the amended C7 at the concrete swapped two-definition
tables. -/
theorem C7_order_independence_amended_witness :
    (nm_spec_strings [permA_def, permB_def]).Perm (nm_spec_strings [permB_def, permA_def]) ∧
    (nm_udev_lines [permA_def, permB_def]).Perm (nm_udev_lines [permB_def, permA_def]) ∧
    ([(⟨nm_conf_d_path,
        nm_unmanaged_header ++ "mac:aa:aa:aa:aa:aa:aa,mac:bb:bb:bb:bb:bb:bb,", 0⟩ : Artifact)].map
      Artifact.path) =
    ([(⟨nm_conf_d_path,
        nm_unmanaged_header ++ "mac:bb:bb:bb:bb:bb:bb,mac:aa:aa:aa:aa:aa:aa,", 0⟩ : Artifact)].map
      Artifact.path) :=
  C7_order_independence_amended [permA_def, permB_def] [permB_def, permA_def] 0 _ _
    (by decide) (by decide) (by decide)

/-! ## Name globbing: claim C4 -/

/-- A NM-owned physical wifi definition with a glob in `match.original_name`,
no rename — and an empty access-point table. -/
def wglob_def : net_definition :=
  { id := "wglob", type := .ND_WIFI, backend := .BACKEND_NM, has_match := true,
    match_ := { driver := none, mac := none, original_name := some "eth*" },
    wake_on_lan := false, dhcp4 := false, set_name := none, bridge := none,
    access_points := some [] }

/-- C4 counterexample: a physical (wifi) NM-owned definition with
`match.original_name = "eth*"` and no `set_name` for which rendering does
NOT fail: with an empty access-point table the per-SSID loop never runs, so
the glob check (which lives inside `write_nm_conf_access_point`) is never
reached and rendering succeeds with zero artifacts. -/
theorem C4_glob_counterexample :
    wglob_def.type.toNat < ND_VIRTUAL ∧
    wglob_def.set_name = none ∧
    wglob_def.match_.original_name = some "eth*" ∧
    strpbrk_globs "eth*" = true ∧
    wglob_def.backend = netdef_backend.BACKEND_NM ∧
    write_nm_conf wglob_def 0 = .ok ([], 0) :=
  ⟨by decide, rfl, rfl, by decide, rfl, by decide⟩

theorem interface_name_glob_error (d : net_definition) (oname : String)
    (hphys : d.type.toNat < ND_VIRTUAL)
    (hs : d.set_name = none) (hm : d.has_match = true)
    (ho : d.match_.original_name = some oname) (hg : strpbrk_globs oname = true) :
    nm_interface_name_section d =
      .error (.fatal ("ERROR: " ++ d.id ++
        ": NetworkManager definitions do not support name globbing\n")) := by
  simp [nm_interface_name_section, hphys, hs, hm, ho, hg]

/-- C4 (amended): for every NM-owned physical definition with no rename, no
driver match, and a glob metacharacter in `match.original_name`, rendering
fails fatally with the "do not support name globbing" diagnostic naming the
definition id and writes no artifact — PROVIDED an artifact is actually
rendered, i.e. the definition is not wifi (then its access-point table is
absent), or it is wifi with at least one access point.  A wifi definition
with an empty access-point table renders nothing and raises no error. -/
theorem C4_glob_fatal_amended (d : net_definition) (u : Nat) (oname : String)
    (hb : d.backend = netdef_backend.BACKEND_NM)
    (hphys : d.type.toNat < ND_VIRTUAL)
    (hdrv : d.match_.driver = none)
    (hs : d.set_name = none)
    (hm : d.has_match = true)
    (ho : d.match_.original_name = some oname)
    (hg : strpbrk_globs oname = true)
    (hap : d.type = netdef_type.ND_WIFI → ∃ ap rest, d.access_points = some (ap :: rest))
    (hnap : d.type ≠ netdef_type.ND_WIFI → d.access_points = none) :
    write_nm_conf d u =
      .error (.fatal ("ERROR: " ++ d.id ++
        ": NetworkManager definitions do not support name globbing\n")) ∧
    ∀ arts u2, write_nm_conf d u ≠ .ok (arts, u2) := by
  have hifs := interface_name_glob_error d oname hphys hs hm ho hg
  have h1 : write_nm_conf d u =
      .error (.fatal ("ERROR: " ++ d.id ++
        ": NetworkManager definitions do not support name globbing\n")) := by
    unfold write_nm_conf
    rw [if_neg (by simp [hb]), if_neg (by simp [hdrv])]
    by_cases ht : d.type = netdef_type.ND_WIFI
    · rw [if_pos ht]
      obtain ⟨ap, rest, hap'⟩ := hap ht
      rw [hap']
      show write_nm_conf_aps d (ap :: rest) u = _
      have hone : write_nm_conf_access_point d (some ap) u =
          .error (.fatal ("ERROR: " ++ d.id ++
            ": NetworkManager definitions do not support name globbing\n")) := by
        unfold write_nm_conf_access_point
        rw [if_neg (by simp [ht]), hifs]
        rfl
      unfold write_nm_conf_aps
      rw [hone]
      rfl
    · rw [if_neg ht, if_neg (by simp [hnap ht])]
      have hone : write_nm_conf_access_point d none u =
          .error (.fatal ("ERROR: " ++ d.id ++
            ": NetworkManager definitions do not support name globbing\n")) := by
        unfold write_nm_conf_access_point
        rw [if_neg (by simp [ht]), hifs]
        rfl
      rw [hone]
      rfl
  refine ⟨h1, fun arts u2 h => ?_⟩
  rw [h1] at h
  cases h

/-- A NM-owned ethernet definition with a glob in its original-name match. -/
def ethglob_def : net_definition :=
  { id := "eglob", type := .ND_ETHERNET, backend := .BACKEND_NM, has_match := true,
    match_ := { driver := none, mac := none, original_name := some "eth*" },
    wake_on_lan := false, dhcp4 := false, set_name := none, bridge := none,
    access_points := none }

/-- Witness for the amended C4 at a concrete ethernet definition. -/
theorem C4_glob_fatal_amended_witness :
    write_nm_conf ethglob_def 0 =
      .error (.fatal ("ERROR: " ++ ethglob_def.id ++
        ": NetworkManager definitions do not support name globbing\n")) ∧
    ∀ arts u2, write_nm_conf ethglob_def 0 ≠ .ok (arts, u2) :=
  C4_glob_fatal_amended ethglob_def 0 "eth*" rfl (by decide) rfl rfl rfl rfl (by decide)
    (fun h => absurd h (by decide)) (fun _ => rfl)

/-! ## Injectivity of the SSID escaping (claim C5) -/

theorem hex_digit_inj : ∀ n, n < 16 → ∀ m, m < 16 → hex_digit n = hex_digit m → n = m := by
  decide

theorem uri_unreserved_percent : uri_unreserved '%' = false := by decide

theorem char_toNat_lt_of_not_unreserved {c : Char} (h : uri_unreserved c = false) :
    c.toNat < 128 := by
  unfold uri_unreserved at h
  have h' := of_decide_eq_false h
  by_contra hc
  push_neg at hc
  exact h' (Or.inr (Or.inr (Or.inr (Or.inr (Or.inr hc)))))

theorem char_toNat_injective {c1 c2 : Char} (h : c1.toNat = c2.toNat) : c1 = c2 := by
  have h2 := congrArg Char.ofNat h
  rwa [Char.ofNat_toNat, Char.ofNat_toNat] at h2

theorem g_uri_escape_list_injective : ∀ l1 l2 : List Char,
    g_uri_escape_list l1 = g_uri_escape_list l2 → l1 = l2 := by
  intro l1
  induction l1 with
  | nil =>
    intro l2 h
    cases l2 with
    | nil => rfl
    | cons c cs =>
      exfalso
      by_cases hu : uri_unreserved c = true
      · simp [g_uri_escape_list, g_uri_escape_char, hu] at h
      · have hu' : uri_unreserved c = false := by simpa using hu
        simp [g_uri_escape_list, g_uri_escape_char, hu'] at h
  | cons c1 cs1 ih =>
    intro l2 h
    cases l2 with
    | nil =>
      exfalso
      by_cases hu : uri_unreserved c1 = true
      · simp [g_uri_escape_list, g_uri_escape_char, hu] at h
      · have hu' : uri_unreserved c1 = false := by simpa using hu
        simp [g_uri_escape_list, g_uri_escape_char, hu'] at h
    | cons c2 cs2 =>
      by_cases h1 : uri_unreserved c1 = true <;> by_cases h2 : uri_unreserved c2 = true
      · simp only [g_uri_escape_list, g_uri_escape_char, h1, h2, if_true,
          List.cons_append, List.nil_append, List.cons.injEq] at h
        rw [h.1, ih cs2 h.2]
      · have h2' : uri_unreserved c2 = false := by simpa using h2
        exfalso
        simp only [g_uri_escape_list, g_uri_escape_char, h1, h2', if_true,
          Bool.false_eq_true, if_false, List.cons_append, List.nil_append,
          List.cons.injEq] at h
        have hc : c1 = '%' := h.1
        rw [hc] at h1
        rw [uri_unreserved_percent] at h1
        exact absurd h1 (by decide)
      · have h1' : uri_unreserved c1 = false := by simpa using h1
        exfalso
        simp only [g_uri_escape_list, g_uri_escape_char, h1', h2, if_true,
          Bool.false_eq_true, if_false, List.cons_append, List.nil_append,
          List.cons.injEq] at h
        have hc : c2 = '%' := h.1.symm
        rw [hc] at h2
        rw [uri_unreserved_percent] at h2
        exact absurd h2 (by decide)
      · have h1' : uri_unreserved c1 = false := by simpa using h1
        have h2' : uri_unreserved c2 = false := by simpa using h2
        simp only [g_uri_escape_list, g_uri_escape_char, h1', h2',
          Bool.false_eq_true, if_false, List.cons_append, List.nil_append,
          List.cons.injEq] at h
        have hb1 : c1.toNat < 128 := char_toNat_lt_of_not_unreserved h1'
        have hb2 : c2.toNat < 128 := char_toNat_lt_of_not_unreserved h2'
        have hdiv : c1.toNat / 16 = c2.toNat / 16 :=
          hex_digit_inj _ (by omega) _ (by omega) h.2.1
        have hmod : c1.toNat % 16 = c2.toNat % 16 :=
          hex_digit_inj _ (by omega) _ (by omega) h.2.2.1
        have htn : c1.toNat = c2.toNat := by omega
        rw [char_toNat_injective htn, ih cs2 h.2.2.2]

theorem g_uri_escape_string_injective {s1 s2 : String}
    (h : g_uri_escape_string s1 = g_uri_escape_string s2) : s1 = s2 := by
  apply String.ext
  apply g_uri_escape_list_injective
  have h2 := congrArg String.data h
  simpa [g_uri_escape_string] using h2

theorem ssid_conf_path_inj {i s1 s2 : String}
    (h : ssid_conf_path i s1 = ssid_conf_path i s2) : s1 = s2 := by
  unfold ssid_conf_path at h
  exact g_uri_escape_string_injective (str_append_left_cancel h)

theorem str_contains_wifi_sec (x ssid m p : String) :
    str_contains (x ++ "\n[wifi]\nssid=" ++ ssid ++ "\nmode=" ++ m ++ "\n" ++
        "\n[wifi-security]\nkey-mgmt=wpa-psk\npsk=" ++ p ++ "\n")
      ("\n[wifi]\nssid=" ++ ssid ++ "\nmode=" ++ m ++ "\n") := by
  refine ⟨x, "\n[wifi-security]\nkey-mgmt=wpa-psk\npsk=" ++ p ++ "\n", ?_⟩
  simp only [String.append_assoc]

theorem str_contains_wifi_nosec (x ssid m : String) :
    str_contains (x ++ "\n[wifi]\nssid=" ++ ssid ++ "\nmode=" ++ m ++ "\n")
      ("\n[wifi]\nssid=" ++ ssid ++ "\nmode=" ++ m ++ "\n") := by
  refine ⟨x, "", ?_⟩
  simp only [String.append_assoc, String.append_empty]

/-- Shape of a successful per-access-point render: the umask is restored,
the write happened under mask 63 (octal 077), the path appends the escaped
SSID to the id-derived filename, and the content carries the unescaped SSID
in its `[wifi]` section. -/
theorem write_ap_ok_shape (d : net_definition) (a : wifi_access_point) (u : Nat)
    (art : Artifact) (u2 : Nat)
    (h : write_nm_conf_access_point d (some a) u = .ok (art, u2)) :
    u2 = u ∧ art.write_umask = 63 ∧ art.path = ssid_conf_path d.id a.ssid ∧
    str_contains art.content
      ("\n[wifi]\nssid=" ++ a.ssid ++ "\nmode=" ++ wifi_mode_str a.mode ++ "\n") := by
  by_cases ht : d.type = netdef_type.ND_WIFI
  case neg =>
    exfalso
    unfold write_nm_conf_access_point at h
    rw [if_pos (by simp [ht])] at h
    cases h
  case pos =>
    unfold write_nm_conf_access_point at h
    rw [if_neg (by simp [ht])] at h
    cases h3 : nm_interface_name_section d with
    | error e =>
      rw [h3, except_bind_error] at h
      cases h
    | ok f3 =>
      rw [h3, except_bind_ok] at h
      cases h5 : nm_physical_link_section d with
      | error e =>
        rw [h5, except_bind_error] at h
        cases h
      | ok f5 =>
        rw [h5, except_bind_ok] at h
        injection h with hpair
        injection hpair with hart hu
        subst hart
        refine ⟨hu.symm, rfl, rfl, ?_⟩
        cases hpw : a.password with
        | some p =>
          simp only [hpw]
          exact str_contains_wifi_sec _ a.ssid (wifi_mode_str a.mode) p
        | none =>
          simp only [hpw]
          exact str_contains_wifi_nosec _ a.ssid (wifi_mode_str a.mode)

/-- The per-SSID loop: on success the artifact list pairs up with the
access-point list index by index, and the umask is threaded back
unchanged. -/
theorem write_nm_conf_aps_ok (d : net_definition) :
    ∀ (aps : List wifi_access_point) (u : Nat) (arts : List Artifact) (u2 : Nat),
    write_nm_conf_aps d aps u = .ok (arts, u2) →
    u2 = u ∧ arts.length = aps.length ∧
    ∀ i (hi : i < aps.length) (ha : i < arts.length),
      write_nm_conf_access_point d (some aps[i]) u = .ok (arts[i], u) := by
  intro aps
  induction aps with
  | nil =>
    intro u arts u2 h
    have h' : (Except.ok (([] : List Artifact), u) : Except NmError (List Artifact × Nat)) =
        .ok (arts, u2) := h
    injection h' with h''
    injection h'' with h1 h2
    subst h2
    refine ⟨rfl, by rw [← h1]; rfl, fun i hi ha => absurd hi (by simp)⟩
  | cons ap rest ih =>
    intro u arts u2 h
    simp only [write_nm_conf_aps] at h
    cases h1 : write_nm_conf_access_point d (some ap) u with
    | error e =>
      rw [h1, except_bind_error] at h
      cases h
    | ok r =>
      obtain ⟨art1, u1⟩ := r
      have hu1 : u1 = u := (write_ap_ok_shape d ap u art1 u1 h1).1
      subst hu1
      rw [h1, except_bind_ok] at h
      cases h2 : write_nm_conf_aps d rest u1 with
      | error e =>
        rw [h2, except_bind_error] at h
        cases h
      | ok rr =>
        obtain ⟨arts', u2'⟩ := rr
        rw [h2, except_bind_ok] at h
        have h' : (Except.ok ((art1 :: arts'), u2') : Except NmError (List Artifact × Nat)) =
            .ok (arts, u2) := h
        injection h' with h''
        injection h'' with ha hu
        subst ha
        subst hu
        obtain ⟨ihu, ihlen, ihidx⟩ := ih u1 arts' u2' h2
        refine ⟨ihu, by simp [ihlen], ?_⟩
        intro i hi ha2
        cases i with
        | zero =>
          simpa using h1
        | succ j =>
          have hj : j < rest.length := by simpa using hi
          have hj2 : j < arts'.length := by simpa using ha2
          simpa using ihidx j hj hj2

/-- C5: for every NM-owned physical-wifi definition with N access points
whose SSIDs are pairwise distinct, a successful rendering produces exactly N
artifacts, the i-th having the path obtained by appending the percent-escaped
SSID to the id-derived filename, with the unescaped SSID written inside the
content's `[wifi]` section; all N paths are pairwise distinct. -/
theorem C5_wifi_per_ap_artifacts (d : net_definition) (aps : List wifi_access_point)
    (u : Nat) (arts : List Artifact) (u2 : Nat)
    (hb : d.backend = netdef_backend.BACKEND_NM)
    (ht : d.type = netdef_type.ND_WIFI)
    (hap : d.access_points = some aps)
    (hdist : aps.Pairwise (fun x y => x.ssid ≠ y.ssid))
    (hok : write_nm_conf d u = .ok (arts, u2)) :
    arts.length = aps.length ∧
    (∀ i (hi : i < aps.length) (ha : i < arts.length),
      arts[i].path = ssid_conf_path d.id aps[i].ssid ∧
      str_contains arts[i].content
        ("\n[wifi]\nssid=" ++ aps[i].ssid ++ "\nmode=" ++
          wifi_mode_str aps[i].mode ++ "\n")) ∧
    arts.Pairwise (fun x y => x.path ≠ y.path) := by
  have hfold : write_nm_conf_aps d aps u = .ok (arts, u2) := by
    unfold write_nm_conf at hok
    rw [if_neg (by simp [hb])] at hok
    by_cases hdrv : d.match_.driver.isSome ∧ d.set_name = none
    · rw [if_pos hdrv] at hok
      cases hok
    · rw [if_neg hdrv, if_pos ht, hap] at hok
      exact hok
  obtain ⟨hu2, hlen, hidx⟩ := write_nm_conf_aps_ok d aps u arts u2 hfold
  refine ⟨hlen, ?_, ?_⟩
  · intro i hi ha
    have hsh := write_ap_ok_shape d aps[i] u arts[i] u (hidx i hi ha)
    exact ⟨hsh.2.2.1, hsh.2.2.2⟩
  · rw [List.pairwise_iff_getElem] at hdist ⊢
    intro i j hi hj hij
    have hii : i < aps.length := by omega
    have hjj : j < aps.length := by omega
    have hshi := write_ap_ok_shape d aps[i] u arts[i] u (hidx i hii hi)
    have hshj := write_ap_ok_shape d aps[j] u arts[j] u (hidx j hjj hj)
    intro hpeq
    exact hdist i j hii hjj hij
      (ssid_conf_path_inj (by rw [← hshi.2.2.1, ← hshj.2.2.1]; exact hpeq))

/-- First witness access point. -/
def ap_home : wifi_access_point := ⟨"Home", .WIFI_MODE_INFRASTRUCTURE, none⟩

/-- Second witness access point, with a path-unsafe space in the SSID. -/
def ap_cafe : wifi_access_point := ⟨"Cafe 5", .WIFI_MODE_ADHOC, none⟩

/-- A NM-owned wifi definition with two access points. -/
def wifi2_def : net_definition :=
  { id := "wl1", type := .ND_WIFI, backend := .BACKEND_NM, has_match := false,
    match_ := { driver := none, mac := none, original_name := none },
    wake_on_lan := false, dhcp4 := true, set_name := none, bridge := none,
    access_points := some [ap_home, ap_cafe] }

/-- The two artifacts rendered for `wifi2_def`: escaped SSID in the path
(`Cafe%205`), unescaped SSID in the content (`ssid=Cafe 5`). -/
def wifi2_arts : List Artifact :=
  [⟨"run/NetworkManager/system-connections/ubuntu-network-wl1-Home",
    "[connection]\nid=ubuntu-network-wl1-Home\ntype=wifi\ninterface-name=wl1\n\n[ethernet]\nwake-on-lan=0\n\n[ipv4]\nmethod=auto\n\n[wifi]\nssid=Home\nmode=infrastructure\n",
    63⟩,
   ⟨"run/NetworkManager/system-connections/ubuntu-network-wl1-Cafe%205",
    "[connection]\nid=ubuntu-network-wl1-Cafe 5\ntype=wifi\ninterface-name=wl1\n\n[ethernet]\nwake-on-lan=0\n\n[ipv4]\nmethod=auto\n\n[wifi]\nssid=Cafe 5\nmode=adhoc\n",
    63⟩]

/-- Witness for C5 at a concrete two-access-point wifi definition. -/
theorem C5_wifi_per_ap_artifacts_witness :
    wifi2_arts.length = [ap_home, ap_cafe].length ∧
    (∀ i (hi : i < [ap_home, ap_cafe].length) (ha : i < wifi2_arts.length),
      wifi2_arts[i].path = ssid_conf_path wifi2_def.id [ap_home, ap_cafe][i].ssid ∧
      str_contains wifi2_arts[i].content
        ("\n[wifi]\nssid=" ++ [ap_home, ap_cafe][i].ssid ++ "\nmode=" ++
          wifi_mode_str [ap_home, ap_cafe][i].mode ++ "\n")) ∧
    wifi2_arts.Pairwise (fun x y => x.path ≠ y.path) :=
  C5_wifi_per_ap_artifacts wifi2_def [ap_home, ap_cafe] 0 wifi2_arts 0
    rfl rfl rfl (by decide) (by decide)
